import Mathlib

/-!
Shallow embedding of the blog listing / similar-posts / pagination pipeline of
the `every-little-thing` repository (Django app `mysite/blog`): `models.py`
(`PublishedManager`, `Post.get_similar_posts`), `views.py` (`post_list`,
`post_detail`), `forms.py` (`SearchForm`, `CommentForm`), together with the
relevant semantics of Django's `Paginator` and of Python `int()` / truthiness,
which the view code relies on.
-/

namespace Blog

/-- A publish / "now" instant, compared lexicographically by calendar field and
then by a time-of-day component (models Django `DateTimeField` values). -/
structure Timestamp where
  year : Nat
  month : Nat
  day : Nat
  tod : Nat
deriving DecidableEq, Repr

/-- Boolean `a ≤ b` on timestamps (lexicographic on year, month, day, tod);
models the SQL comparison behind `publish__lte`. -/
def Timestamp.ble (a b : Timestamp) : Bool :=
  decide (a.year < b.year) ||
    (decide (a.year = b.year) && (decide (a.month < b.month) ||
      (decide (a.month = b.month) && (decide (a.day < b.day) ||
        (decide (a.day = b.day) && decide (a.tod ≤ b.tod))))))

theorem Timestamp.ble_trans {a b c : Timestamp}
    (h1 : Timestamp.ble a b = true) (h2 : Timestamp.ble b c = true) :
    Timestamp.ble a c = true := by
  simp only [Timestamp.ble, Bool.or_eq_true, Bool.and_eq_true,
    decide_eq_true_eq] at h1 h2 ⊢
  omega

theorem Timestamp.ble_total (a b : Timestamp) :
    Timestamp.ble a b = true ∨ Timestamp.ble b a = true := by
  simp only [Timestamp.ble, Bool.or_eq_true, Bool.and_eq_true,
    decide_eq_true_eq]
  omega

theorem Timestamp.ble_antisymm {a b : Timestamp}
    (h1 : Timestamp.ble a b = true) (h2 : Timestamp.ble b a = true) : a = b := by
  cases a
  cases b
  simp only [Timestamp.ble, Bool.or_eq_true, Bool.and_eq_true,
    decide_eq_true_eq] at h1 h2
  simp only [Timestamp.mk.injEq]
  omega

/-- A blog post row (`blog.models.Post`): primary key, title, slug, publish
timestamp and the ids of the taggit tags attached to it. -/
structure Post where
  id : Nat
  title : String
  slug : String
  publish : Timestamp
  tags : List Nat
deriving DecidableEq, Repr

/-- A taggit `Tag` row: primary key and slug. -/
structure Tag where
  id : Nat
  slug : String
deriving DecidableEq, Repr

/-! Ordering infrastructure: a structurally recursive, hence kernel-executable,
insertion sort by a boolean comparison, modelling SQL `ORDER BY`. -/

/-- Insert `a` in front of the first element `b` with `le a b`. -/
def insertOrd (le : α → α → Bool) (a : α) : List α → List α
  | [] => [a]
  | b :: l => if le a b then a :: b :: l else b :: insertOrd le a l

/-- Insertion sort by the boolean comparison `le` (models `ORDER BY`). -/
def sortBy (le : α → α → Bool) : List α → List α
  | [] => []
  | a :: l => insertOrd le a (sortBy le l)

theorem mem_insertOrd {le : α → α → Bool} {a x : α} {l : List α} :
    x ∈ insertOrd le a l ↔ x = a ∨ x ∈ l := by
  induction l with
  | nil => simp [insertOrd]
  | cons b l ih =>
    by_cases h : le a b
    · simp [insertOrd, h]
    · simp only [insertOrd, h]
      simp only [Bool.false_eq_true, if_false, List.mem_cons, ih]
      tauto

theorem mem_sortBy {le : α → α → Bool} {x : α} {l : List α} :
    x ∈ sortBy le l ↔ x ∈ l := by
  induction l with
  | nil => simp [sortBy]
  | cons a l ih => simp [sortBy, mem_insertOrd, ih]

theorem pairwise_insertOrd {le : α → α → Bool}
    (trans : ∀ a b c, le a b = true → le b c = true → le a c = true)
    (total : ∀ a b, le a b = true ∨ le b a = true) {a : α} {l : List α}
    (h : l.Pairwise (fun x y => le x y = true)) :
    (insertOrd le a l).Pairwise (fun x y => le x y = true) := by
  induction l with
  | nil => simp [insertOrd]
  | cons b l ih =>
    rcases h with - | ⟨hb, hl⟩
    by_cases hab : le a b
    · simp only [insertOrd, hab, if_true]
      refine List.Pairwise.cons ?_ (List.Pairwise.cons hb hl)
      intro x hx
      rcases List.mem_cons.mp hx with rfl | hx
      · exact hab
      · exact trans a b x hab (hb x hx)
    · simp only [insertOrd, hab, Bool.false_eq_true, if_false]
      refine List.Pairwise.cons ?_ (ih hl)
      intro x hx
      rcases mem_insertOrd.mp hx with rfl | hx
      · rcases total x b with h' | h'
        · exact absurd h' hab
        · exact h'
      · exact hb x hx

theorem pairwise_sortBy {le : α → α → Bool}
    (trans : ∀ a b c, le a b = true → le b c = true → le a c = true)
    (total : ∀ a b, le a b = true ∨ le b a = true) (l : List α) :
    (sortBy le l).Pairwise (fun x y => le x y = true) := by
  induction l with
  | nil => simp [sortBy]
  | cons a l ih => exact pairwise_insertOrd trans total ih

/-! The published-posts manager and the similar-posts ranking
(`blog/models.py`). -/

/-- `PublishedManager.get_queryset` (models.py lines 12-18): all posts with
`publish <= timezone.now()`, without the model's default ordering applied
downstream operations may override. -/
def published_qs (now : Timestamp) (db : List Post) : List Post :=
  db.filter (fun p => Timestamp.ble p.publish now)

/-- Comparison realising Django's default `Meta.ordering = ("-publish",)`:
descending publish timestamp. -/
def publish_desc (a b : Post) : Bool :=
  Timestamp.ble b.publish a.publish

/-- `Post.published.all()` as evaluated with the model's default ordering:
visible posts, most recently published first. -/
def published_all (now : Timestamp) (db : List Post) : List Post :=
  sortBy publish_desc (published_qs now db)

/-- The `same_tags` annotation of `Post.get_similar_posts`: in SQL,
`Count("tags")` over the join rows restricted by `tags__in=post_tags_ids`
counts exactly the candidate's tags that are also tags of `r`. -/
def sameTags (r c : Post) : Nat :=
  (c.tags.filter (fun t => decide (t ∈ r.tags))).length

/-- Comparison realising `order_by("-same_tags", "-publish")` relative to the
reference post `r`. -/
def similar_le (r a b : Post) : Bool :=
  decide (sameTags r b < sameTags r a) ||
    (decide (sameTags r a = sameTags r b) && Timestamp.ble b.publish a.publish)

theorem similar_le_trans (r a b c : Post)
    (h1 : similar_le r a b = true) (h2 : similar_le r b c = true) :
    similar_le r a c = true := by
  simp only [similar_le, Bool.or_eq_true, Bool.and_eq_true,
    decide_eq_true_eq] at h1 h2 ⊢
  rcases h1 with h1 | ⟨h1e, h1b⟩
  · rcases h2 with h2 | ⟨h2e, h2b⟩
    · exact Or.inl (Nat.lt_trans h2 h1)
    · exact Or.inl (h2e ▸ h1)
  · rcases h2 with h2 | ⟨h2e, h2b⟩
    · exact Or.inl (by omega)
    · exact Or.inr ⟨h1e.trans h2e, Timestamp.ble_trans h2b h1b⟩

theorem similar_le_total (r a b : Post) :
    similar_le r a b = true ∨ similar_le r b a = true := by
  simp only [similar_le, Bool.or_eq_true, Bool.and_eq_true, decide_eq_true_eq]
  rcases Nat.lt_trichotomy (sameTags r a) (sameTags r b) with h | h | h
  · exact Or.inr (Or.inl h)
  · rcases Timestamp.ble_total b.publish a.publish with hb | hb
    · exact Or.inl (Or.inr ⟨h, hb⟩)
    · exact Or.inr (Or.inr ⟨h.symm, hb⟩)
  · exact Or.inl (Or.inl h)

/-- `Post.get_similar_posts` (models.py lines 52-59): visible published posts
sharing at least one tag with `self`, excluding `self` by id, ordered by
descending shared-tag count then descending publish, truncated to 4. -/
def get_similar_posts (now : Timestamp) (db : List Post) (self : Post) : List Post :=
  let post_tags_ids := self.tags
  let candidates :=
    ((published_qs now db).filter
        (fun p => decide (∃ t, t ∈ p.tags ∧ t ∈ post_tags_ids))).filter
      (fun p => decide (¬ p.id = self.id))
  (sortBy (similar_le self) candidates).take 4

/-! Python-level helpers the view code relies on: `str.strip`, `int(...)`,
and truthiness of optional URL parameters. -/

/-- Python `str.strip()` (also Django `CharField`'s default stripping):
drop leading and trailing whitespace. -/
def pyStrip (s : String) : String :=
  ⟨((s.data.dropWhile Char.isWhitespace).reverse.dropWhile Char.isWhitespace).reverse⟩

/-- Numeric value of a digit string (little helper for `pyInt`). -/
def digitsToNat (cs : List Char) : Nat :=
  cs.foldl (fun n c => n * 10 + (c.toNat - 48)) 0

/-- Python `int(s)` on a string: optional surrounding whitespace, an optional
sign, then decimal digits; any other shape raises `ValueError`, modelled as
`none` (digit-group underscores are not modelled). -/
def pyInt (s : String) : Option Int :=
  match (pyStrip s).data with
  | [] => none
  | '-' :: rest =>
    if !rest.isEmpty && rest.all Char.isDigit then some (-(digitsToNat rest : Int))
    else none
  | '+' :: rest =>
    if !rest.isEmpty && rest.all Char.isDigit then some ((digitsToNat rest : Int))
    else none
  | cs =>
    if cs.all Char.isDigit then some ((digitsToNat cs : Int)) else none

/-- Python truthiness of an optional integer URL parameter: present and
nonzero (`if year and month:`). -/
def truthyNat : Option Nat → Bool
  | none => false
  | some n => decide (n ≠ 0)

/-- Python truthiness of an optional string URL parameter: present and
nonempty (`elif tag_slug:`). -/
def truthyStr : Option String → Bool
  | none => false
  | some s => !s.data.isEmpty

/-- Validity domain of `datetime.datetime(year, month, day=1)`: outside it the
constructor raises an unhandled `ValueError`. -/
def datetime_ok (y m : Nat) : Bool :=
  decide (1 ≤ y) && decide (y ≤ 9999) && decide (1 ≤ m) && decide (m ≤ 12)

/-! Django `Paginator` semantics as used by `post_list`
(views.py lines 47-57), with `per_page = 4`, `orphans = 0` and
`allow_empty_first_page = True`. -/

/-- Exceptions of `Paginator.validate_number`. -/
inductive PageError where
  | pageNotAnInteger
  | emptyPage
deriving DecidableEq, Repr

/-- `Paginator.num_pages`: `ceil(max(1, count - orphans) / per_page)` with
`orphans = 0`. -/
def num_pages (count per : Nat) : Nat :=
  (max 1 count + per - 1) / per

/-- `Paginator.validate_number`: absent token (`int(None)` raises `TypeError`)
or non-numeric token raises `PageNotAnInteger`; a number below 1 or above
`num_pages` (except 1 itself, allowed for an empty first page) raises
`EmptyPage`. -/
def validate_number (np : Nat) (tok : Option String) : Except PageError Int :=
  match tok with
  | none => .error .pageNotAnInteger
  | some s =>
    match pyInt s with
    | none => .error .pageNotAnInteger
    | some n =>
      if n < 1 then .error .emptyPage
      else if (np : Int) < n ∧ n ≠ 1 then .error .emptyPage
      else .ok n

/-- Items of page `n` (1-based) at page size `per`. -/
def page_items (l : List α) (per n : Nat) : List α :=
  (l.drop ((n - 1) * per)).take per

/-- Outcome of the pagination block of `post_list`: a page of items, or the
empty `HttpResponse("")` sent to an ajax request for an out-of-range page. -/
inductive Paged (α : Type) where
  | page (items : List α) (number : Nat)
  | ajaxEmpty
deriving DecidableEq, Repr

/-- The `try/except` pagination block of `post_list` (views.py lines 47-57):
`PageNotAnInteger` falls back to page 1; `EmptyPage` yields `HttpResponse("")`
for an ajax request and the last page otherwise. -/
def paginate_request (l : List Post) (tok : Option String) (isAjax : Bool) :
    Paged Post :=
  let np := num_pages l.length 4
  match validate_number np tok with
  | .ok n => .page (page_items l 4 n.toNat) n.toNat
  | .error .pageNotAnInteger => .page (page_items l 4 1) 1
  | .error .emptyPage =>
    if isAjax then .ajaxEmpty else .page (page_items l 4 np) np

/-! The listing view `post_list` (views.py lines 16-78) and its collaborators
`SearchForm` (forms.py lines 38-45) and the taggit `Tag` lookup. -/

/-- `SearchForm` validation: `query` is a required `CharField`, so the form is
valid iff the stripped value is nonempty; `cleaned_data["query"]` is the
stripped value. -/
def SearchForm.clean_query (raw : String) : Option String :=
  let t := pyStrip raw
  if t.data.isEmpty then none else some t

/-- Trigram-similarity threshold `0.1` of `filter(similarity__gt=0.1)`. -/
def searchThreshold : ℚ := mkRat 1 10

/-- Comparison realising `order_by("-similarity")` where the similarity of a
post is `sim` applied to its title and the query. -/
def sim_le (sim : String → String → ℚ) (q : String) (a b : Post) : Bool :=
  decide (sim b.title q ≤ sim a.title q)

/-- The search branch of `post_list` (views.py lines 36-41): annotate with
`TrigramSimilarity("title", query)`, keep scores strictly above `0.1`, order
by descending similarity. -/
def search_rank (sim : String → String → ℚ) (q : String) (posts : List Post) :
    List Post :=
  sortBy (sim_le sim q) (posts.filter (fun p => decide (searchThreshold < sim p.title q)))

/-- An HTTP request to the listing endpoint: URL captures `year`, `month`,
`tag_slug`, the GET parameters `query` and `page`, and `request.is_ajax()`. -/
structure ListRequest where
  year : Option Nat
  month : Option Nat
  tag_slug : Option String
  query : Option String
  page : Option String
  isAjax : Bool
deriving DecidableEq, Repr

/-- Terminal failures of the listing view: `Http404` (raised by
`get_object_or_404` or `raise Http404("Invalid search")`) and an unhandled
Python `ValueError` escaping `datetime.datetime(year, month, day=1)`. -/
inductive ViewError where
  | http404 (msg : String)
  | valueError
deriving DecidableEq, Repr

/-- A successful response of `post_list`: the full `list.html` render context,
the `list_ajax.html` fragment, or the empty `HttpResponse("")`. -/
inductive ListResponse where
  | fullPage (tag : Option Tag) (date : Option (Nat × Nat)) (items : List Post)
      (pageNumber : Nat) (query : Option String) (total_results : Nat)
  | ajaxPage (items : List Post) (pageNumber : Nat)
  | ajaxEmptyResponse
deriving DecidableEq, Repr

/-- Archive filter `filter(publish__year=date.year, publish__month=date.month)`. -/
def month_filter (y m : Nat) (posts : List Post) : List Post :=
  posts.filter (fun p => decide (p.publish.year = y ∧ p.publish.month = m))

/-- Tag filter `filter(tags__in=[tag])`. -/
def tag_filter (t : Tag) (posts : List Post) : List Post :=
  posts.filter (fun p => decide (t.id ∈ p.tags))

/-- `get_object_or_404(Tag, slug=tag_slug)`. -/
def get_tag_or_404 (tags : List Tag) (slug : String) : Except ViewError Tag :=
  match tags.find? (fun t => t.slug == slug) with
  | none => .error (.http404 "No Tag matches the given query.")
  | some t => .ok t

/-- The base-filter branch of `post_list` (views.py lines 17-28): start from
`Post.published.all()`; if `year and month` are truthy, build the
first-of-month date (unhandled `ValueError` outside the datetime domain) and
filter by that calendar month; elif `tag_slug` is truthy, resolve it (404 when
unknown) and filter by the tag. -/
def base_filtered (tags : List Tag) (now : Timestamp) (db : List Post)
    (req : ListRequest) :
    Except ViewError (List Post × Option Tag × Option (Nat × Nat)) :=
  let posts := published_all now db
  if truthyNat req.year && truthyNat req.month then
    let y := req.year.getD 0
    let m := req.month.getD 0
    if datetime_ok y m then .ok (month_filter y m posts, none, some (y, m))
    else .error .valueError
  else if truthyStr req.tag_slug then
    match get_tag_or_404 tags (req.tag_slug.getD "") with
    | .error e => .error e
    | .ok t => .ok (tag_filter t posts, some t, none)
  else .ok (posts, none, none)

/-- The query branch of `post_list` (views.py lines 30-43): when the GET
parameter `query` is present, an invalid `SearchForm` raises
`Http404("Invalid search")`, a valid one applies the similarity ranking. -/
def query_filtered (sim : String → String → ℚ) (req : ListRequest)
    (posts : List Post) : Except ViewError (List Post × Option String) :=
  match req.query with
  | none => .ok (posts, none)
  | some raw =>
    match SearchForm.clean_query raw with
    | none => .error (.http404 "Invalid search")
    | some q => .ok (search_rank sim q posts, some q)

/-- The fully filtered and ranked result list of `post_list` together with the
`tag`, `date` and `query` context values, just before `total_results` and
pagination are computed. -/
def post_list_results (tags : List Tag) (now : Timestamp)
    (sim : String → String → ℚ) (db : List Post) (req : ListRequest) :
    Except ViewError (List Post × Option Tag × Option (Nat × Nat) × Option String) :=
  match base_filtered tags now db req with
  | .error e => .error e
  | .ok (posts1, tag, date) =>
    match query_filtered sim req posts1 with
    | .error e => .error e
    | .ok (posts2, q) => .ok (posts2, tag, date, q)

/-- The whole `post_list` view (views.py lines 16-78): filters, search
ranking, `total_results = posts.count()`, pagination, and the choice between
the full page, the ajax fragment and the empty ajax response. -/
def post_list (tags : List Tag) (now : Timestamp) (sim : String → String → ℚ)
    (db : List Post) (req : ListRequest) : Except ViewError ListResponse :=
  match post_list_results tags now sim db req with
  | .error e => .error e
  | .ok (results, tag, date, q) =>
    let total_results := results.length
    match paginate_request results req.page req.isAjax with
    | .ajaxEmpty => .ok .ajaxEmptyResponse
    | .page items n =>
      if req.isAjax then .ok (.ajaxPage items n)
      else .ok (.fullPage tag date items n q total_results)

/-- Items a `ListResponse` delivers to the client. -/
def response_items : ListResponse → List Post
  | .fullPage _ _ items _ _ _ => items
  | .ajaxPage items _ => items
  | .ajaxEmptyResponse => []

/-- The post lookup of `post_detail` (views.py lines 85-92):
`get_object_or_404(Post, slug=post, publish__lte=timezone.now(),
publish__year=year, publish__month=month, publish__day=day)`; `none` models
the raised `Http404`. -/
def post_detail (db : List Post) (now : Timestamp) (y m d : Nat)
    (slug : String) : Option Post :=
  db.find? (fun p =>
    p.slug == slug && Timestamp.ble p.publish now &&
      decide (p.publish.year = y) && decide (p.publish.month = m) &&
        decide (p.publish.day = d))

/-! The comment-submission branch of `post_detail` (views.py lines 96-104)
with `CommentForm` (forms.py lines 5-36). -/

/-- A stored comment row (`blog.models.Comment`). -/
structure Comment where
  post_id : Nat
  name : String
  email : String
  body : String
  active : Bool
deriving DecidableEq, Repr

/-- The bound data of a `CommentForm` (fields `name`, `email`, `body`). -/
structure CommentFormData where
  name : String
  email : String
  body : String
deriving DecidableEq, Repr

/-- `CommentForm.is_valid()`: all three fields are required `CharField`s
(name capped at 80 characters, email additionally shaped like an address,
modelled as containing an `@`). -/
def CommentForm.is_valid (f : CommentFormData) : Bool :=
  !(pyStrip f.name).data.isEmpty && decide (f.name.length ≤ 80) &&
    !(pyStrip f.email).data.isEmpty && f.email.data.contains '@' &&
      !(pyStrip f.body).data.isEmpty

/-- The Python runtime error raised by calling `.save()` on `None`. -/
inductive PyRuntimeError where
  | attributeErrorNoneSave
deriving DecidableEq, Repr

/-- The POST branch of `post_detail` (views.py lines 96-104), translated
statement by statement: `new_comment = None`; when the bound form is valid the
view executes `new_comment.save()` on the current value of `new_comment`,
which is still `None`, so the branch raises `AttributeError` instead of
persisting a comment; `stored` is the comment table, returned unchanged on
every non-raising path. -/
def post_detail_comment_flow (stored : List Comment) (f : CommentFormData) :
    Except PyRuntimeError (List Comment × Option Comment) :=
  let new_comment : Option Comment := none
  if CommentForm.is_valid f then
    match new_comment with
    | none => .error .attributeErrorNoneSave
    | some c => .ok (stored ++ [c], some c)
  else .ok (stored, new_comment)

/-! Membership lemmas connecting the pipeline stages. -/

theorem mem_published_qs {now : Timestamp} {db : List Post} {p : Post} :
    p ∈ published_qs now db ↔ p ∈ db ∧ Timestamp.ble p.publish now = true := by
  simp [published_qs, List.mem_filter]

theorem mem_published_all {now : Timestamp} {db : List Post} {p : Post} :
    p ∈ published_all now db ↔ p ∈ db ∧ Timestamp.ble p.publish now = true := by
  simp [published_all, mem_sortBy, mem_published_qs]

theorem mem_page_items {l : List α} {per n : Nat} {x : α}
    (h : x ∈ page_items l per n) : x ∈ l :=
  List.mem_of_mem_drop (List.mem_of_mem_take h)

theorem mem_search_rank {sim : String → String → ℚ} {q : String}
    {posts : List Post} {p : Post} :
    p ∈ search_rank sim q posts ↔
      p ∈ posts ∧ searchThreshold < sim p.title q := by
  simp [search_rank, mem_sortBy, List.mem_filter]

theorem base_filtered_sub {tags : List Tag} {now : Timestamp} {db : List Post}
    {req : ListRequest} {l : List Post} {t : Option Tag} {d : Option (Nat × Nat)}
    (h : base_filtered tags now db req = .ok (l, t, d)) :
    ∀ p ∈ l, p ∈ published_all now db := by
  intro p hp
  simp only [base_filtered] at h
  split at h
  · split at h
    · simp only [Except.ok.injEq, Prod.mk.injEq] at h
      obtain ⟨h1, -, -⟩ := h
      subst h1
      exact (List.mem_filter.mp hp).1
    · simp at h
  · split at h
    · split at h
      · simp at h
      · simp only [Except.ok.injEq, Prod.mk.injEq] at h
        obtain ⟨h1, -, -⟩ := h
        subst h1
        exact (List.mem_filter.mp hp).1
    · simp only [Except.ok.injEq, Prod.mk.injEq] at h
      obtain ⟨h1, -, -⟩ := h
      subst h1
      exact hp

theorem query_filtered_sub {sim : String → String → ℚ} {req : ListRequest}
    {posts l : List Post} {q : Option String}
    (h : query_filtered sim req posts = .ok (l, q)) : ∀ p ∈ l, p ∈ posts := by
  intro p hp
  simp only [query_filtered] at h
  split at h
  · simp only [Except.ok.injEq, Prod.mk.injEq] at h
    obtain ⟨h1, -⟩ := h
    subst h1
    exact hp
  · split at h
    · simp at h
    · simp only [Except.ok.injEq, Prod.mk.injEq] at h
      obtain ⟨h1, -⟩ := h
      subst h1
      exact (mem_search_rank.mp hp).1

theorem post_list_results_sub {tags : List Tag} {now : Timestamp}
    {sim : String → String → ℚ} {db : List Post} {req : ListRequest}
    {l : List Post} {t : Option Tag} {d : Option (Nat × Nat)} {q : Option String}
    (h : post_list_results tags now sim db req = .ok (l, t, d, q)) :
    ∀ p ∈ l, p ∈ published_all now db := by
  intro p hp
  simp only [post_list_results] at h
  split at h
  · simp at h
  · rename_i heq1
    split at h
    · simp at h
    · rename_i heq2
      simp only [Except.ok.injEq, Prod.mk.injEq] at h
      obtain ⟨h1, -, -, -⟩ := h
      subst h1
      exact base_filtered_sub heq1 p (query_filtered_sub heq2 p hp)

theorem paginate_request_sub {l : List Post} {tok : Option String} {ajax : Bool}
    {items : List Post} {n : Nat}
    (h : paginate_request l tok ajax = .page items n) : ∀ p ∈ items, p ∈ l := by
  intro p hp
  simp only [paginate_request] at h
  split at h
  · simp only [Paged.page.injEq] at h
    obtain ⟨h1, -⟩ := h
    subst h1
    exact mem_page_items hp
  · simp only [Paged.page.injEq] at h
    obtain ⟨h1, -⟩ := h
    subst h1
    exact mem_page_items hp
  · split at h
    · simp at h
    · simp only [Paged.page.injEq] at h
      obtain ⟨h1, -⟩ := h
      subst h1
      exact mem_page_items hp

theorem post_list_items_sub {tags : List Tag} {now : Timestamp}
    {sim : String → String → ℚ} {db : List Post} {req : ListRequest}
    {resp : ListResponse}
    (h : post_list tags now sim db req = .ok resp) :
    ∀ p ∈ response_items resp, p ∈ published_all now db := by
  intro p hp
  simp only [post_list] at h
  split at h
  · simp at h
  · rename_i heq1
    split at h
    · simp only [Except.ok.injEq] at h
      subst h
      simp [response_items] at hp
    · rename_i heq2
      split at h <;> simp only [Except.ok.injEq] at h <;> subst h <;>
        simp only [response_items] at hp <;>
          exact post_list_results_sub heq1 p (paginate_request_sub heq2 p hp)

/-- C1: every read path — the main, tag, archive and searched listings served
by `post_list`, the `post_detail` lookup and the similar-posts ranking —
returns a post only if its publish timestamp is at or before `now`; a post
with a future publish timestamp is never returned. -/
theorem c1_future_posts_invisible (tags : List Tag) (now : Timestamp)
    (sim : String → String → ℚ) (db : List Post) :
    (∀ req resp, post_list tags now sim db req = .ok resp →
        ∀ p, p ∈ response_items resp → Timestamp.ble p.publish now = true)
    ∧ (∀ y m d slug p, post_detail db now y m d slug = some p →
        Timestamp.ble p.publish now = true)
    ∧ (∀ r p, p ∈ get_similar_posts now db r →
        Timestamp.ble p.publish now = true) := by
  refine ⟨?_, ?_, ?_⟩
  · intro req resp h p hp
    exact (mem_published_all.mp (post_list_items_sub h p hp)).2
  · intro y m d slug p h
    have hpred := List.find?_some h
    simp only [Bool.and_eq_true, decide_eq_true_eq] at hpred
    exact hpred.1.1.1.2
  · intro r p hp
    simp only [get_similar_posts] at hp
    have h1 := mem_sortBy.mp (List.mem_of_mem_take hp)
    have h2 := (List.mem_filter.mp (List.mem_filter.mp h1).1).1
    exact (mem_published_qs.mp h2).2

/-- C1 witness: concrete instances of the three read paths, each returning a
post whose publish timestamp the theorem then bounds by `now`. -/
theorem c1_witness :
    Timestamp.ble (⟨2021, 5, 1, 0⟩ : Timestamp) ⟨2025, 1, 1, 0⟩ = true ∧
      Timestamp.ble (⟨2020, 2, 3, 0⟩ : Timestamp) ⟨2025, 1, 1, 0⟩ = true ∧
      Timestamp.ble (⟨2019, 7, 8, 0⟩ : Timestamp) ⟨2025, 1, 1, 0⟩ = true := by
  refine ⟨?_, ?_, ?_⟩
  · exact (c1_future_posts_invisible [] ⟨2025, 1, 1, 0⟩ (fun _ _ => 0)
        [{ id := 1, title := "w", slug := "w", publish := ⟨2021, 5, 1, 0⟩, tags := [] }]).1
      { year := none, month := none, tag_slug := none, query := none,
        page := none, isAjax := false }
      (.fullPage none none
        [{ id := 1, title := "w", slug := "w", publish := ⟨2021, 5, 1, 0⟩, tags := [] }]
        1 none 1)
      (by rfl)
      { id := 1, title := "w", slug := "w", publish := ⟨2021, 5, 1, 0⟩, tags := [] }
      (by decide)
  · exact (c1_future_posts_invisible [] ⟨2025, 1, 1, 0⟩ (fun _ _ => 0)
        [{ id := 2, title := "d", slug := "d", publish := ⟨2020, 2, 3, 0⟩, tags := [] }]).2.1
      2020 2 3 "d"
      { id := 2, title := "d", slug := "d", publish := ⟨2020, 2, 3, 0⟩, tags := [] }
      (by rfl)
  · exact (c1_future_posts_invisible [] ⟨2025, 1, 1, 0⟩ (fun _ _ => 0)
        [{ id := 3, title := "s", slug := "s", publish := ⟨2019, 7, 8, 0⟩, tags := [1] }]).2.2
      { id := 4, title := "r", slug := "r", publish := ⟨2018, 1, 1, 0⟩, tags := [1] }
      { id := 3, title := "s", slug := "s", publish := ⟨2019, 7, 8, 0⟩, tags := [1] }
      (by decide)

/-! Claims C2 and C3: the similar-posts ranking. -/

theorem similar_le_iff {r a b : Post} :
    similar_le r a b = true ↔
      sameTags r b < sameTags r a ∨
        (sameTags r a = sameTags r b ∧ Timestamp.ble b.publish a.publish = true) := by
  simp [similar_le]

theorem sameTags_eq_inter_card (r c : Post) (h : c.tags.Nodup) :
    sameTags r c = (c.tags.toFinset ∩ r.tags.toFinset).card := by
  have hn : (c.tags.filter (fun t => decide (t ∈ r.tags))).Nodup := h.filter _
  rw [sameTags, ← List.toFinset_card_of_nodup hn, List.toFinset_filter]
  congr 1
  ext x
  simp

theorem get_similar_posts_pairwise (now : Timestamp) (db : List Post) (r : Post) :
    (get_similar_posts now db r).Pairwise (fun a b => similar_le r a b = true) := by
  simp only [get_similar_posts]
  exact List.Pairwise.sublist (List.take_sublist 4 _)
    (pairwise_sortBy (similar_le_trans r) (similar_le_total r) _)

/-- C2: for a reference post R, `same_tags` of a candidate C is the
cardinality of the intersection of C's tag set with R's tag set, and the
similar-posts list is ordered by descending `same_tags`, ties broken by
descending publish timestamp: a candidate with strictly more shared tags sits
strictly earlier regardless of publish recency, and among equal-overlap
candidates the strictly more recently published one sits strictly earlier. -/
theorem c2_similar_ranking (now : Timestamp) (db : List Post) (r : Post) :
    (∀ c : Post, c.tags.Nodup →
        sameTags r c = (c.tags.toFinset ∩ r.tags.toFinset).card)
    ∧ (get_similar_posts now db r).Pairwise (fun a b =>
        sameTags r b < sameTags r a ∨
          (sameTags r a = sameTags r b ∧ Timestamp.ble b.publish a.publish = true))
    ∧ (∀ (i j : Nat) (hi : i < (get_similar_posts now db r).length)
        (hj : j < (get_similar_posts now db r).length),
        sameTags r ((get_similar_posts now db r).get ⟨j, hj⟩) <
            sameTags r ((get_similar_posts now db r).get ⟨i, hi⟩) → i < j)
    ∧ (∀ (i j : Nat) (hi : i < (get_similar_posts now db r).length)
        (hj : j < (get_similar_posts now db r).length),
        sameTags r ((get_similar_posts now db r).get ⟨i, hi⟩) =
            sameTags r ((get_similar_posts now db r).get ⟨j, hj⟩) →
        Timestamp.ble ((get_similar_posts now db r).get ⟨j, hj⟩).publish
            ((get_similar_posts now db r).get ⟨i, hi⟩).publish = true →
        ((get_similar_posts now db r).get ⟨i, hi⟩).publish ≠
            ((get_similar_posts now db r).get ⟨j, hj⟩).publish → i < j) := by
  have hpw := get_similar_posts_pairwise now db r
  have hgetpw := List.pairwise_iff_getElem.mp hpw
  refine ⟨fun c h => sameTags_eq_inter_card r c h, hpw.imp (fun h => similar_le_iff.mp h), ?_, ?_⟩
  · intro i j hi hj hlt
    by_contra hij
    rcases Nat.lt_or_eq_of_le (Nat.le_of_not_lt hij) with hji | hji
    · have := hgetpw j i hj hi hji
      rw [similar_le_iff] at this
      simp only [List.get_eq_getElem] at hlt
      omega
    · subst hji
      simp only [List.get_eq_getElem] at hlt
      omega
  · intro i j hi hj heq hble hne
    by_contra hij
    rcases Nat.lt_or_eq_of_le (Nat.le_of_not_lt hij) with hji | hji
    · have hji' := hgetpw j i hj hi hji
      rw [similar_le_iff] at hji'
      simp only [List.get_eq_getElem] at heq hble hne
      rcases hji' with h | ⟨-, h⟩
      · omega
      · exact hne (Timestamp.ble_antisymm h hble)
    · subst hji
      simp only [List.get_eq_getElem] at hne
      exact hne rfl

/-- C2 witness: a concrete reference with tags `[1, 2]` and candidates `X`
(tags `[1, 2]`, published 2020) and `Y` (tags `[1]`, published 2024): the
intersection-cardinality score, the strict ranking of `X` above the more
recent `Y`, and the recency tie-break between two overlap-1 candidates. -/
theorem c2_witness :
    sameTags { id := 1, title := "r", slug := "r", publish := ⟨2021, 1, 1, 0⟩, tags := [1, 2] }
        { id := 3, title := "x", slug := "x", publish := ⟨2020, 1, 1, 0⟩, tags := [1, 2] }
      = (({ id := 3, title := "x", slug := "x", publish := ⟨2020, 1, 1, 0⟩, tags := [1, 2] } : Post).tags.toFinset ∩
          ({ id := 1, title := "r", slug := "r", publish := ⟨2021, 1, 1, 0⟩, tags := [1, 2] } : Post).tags.toFinset).card
    ∧ (0 : Nat) < 1 ∧ (1 : Nat) < 2 := by
  refine ⟨?_, ?_, ?_⟩
  · exact (c2_similar_ranking ⟨2025, 1, 1, 0⟩
        [{ id := 2, title := "y", slug := "y", publish := ⟨2024, 1, 1, 0⟩, tags := [1] },
         { id := 3, title := "x", slug := "x", publish := ⟨2020, 1, 1, 0⟩, tags := [1, 2] },
         { id := 4, title := "z", slug := "z", publish := ⟨2019, 1, 1, 0⟩, tags := [1] }]
        { id := 1, title := "r", slug := "r", publish := ⟨2021, 1, 1, 0⟩, tags := [1, 2] }).1
      { id := 3, title := "x", slug := "x", publish := ⟨2020, 1, 1, 0⟩, tags := [1, 2] }
      (by decide)
  · exact (c2_similar_ranking ⟨2025, 1, 1, 0⟩
        [{ id := 2, title := "y", slug := "y", publish := ⟨2024, 1, 1, 0⟩, tags := [1] },
         { id := 3, title := "x", slug := "x", publish := ⟨2020, 1, 1, 0⟩, tags := [1, 2] },
         { id := 4, title := "z", slug := "z", publish := ⟨2019, 1, 1, 0⟩, tags := [1] }]
        { id := 1, title := "r", slug := "r", publish := ⟨2021, 1, 1, 0⟩, tags := [1, 2] }).2.2.1
      0 1 (by decide) (by decide) (by decide)
  · exact (c2_similar_ranking ⟨2025, 1, 1, 0⟩
        [{ id := 2, title := "y", slug := "y", publish := ⟨2024, 1, 1, 0⟩, tags := [1] },
         { id := 3, title := "x", slug := "x", publish := ⟨2020, 1, 1, 0⟩, tags := [1, 2] },
         { id := 4, title := "z", slug := "z", publish := ⟨2019, 1, 1, 0⟩, tags := [1] }]
        { id := 1, title := "r", slug := "r", publish := ⟨2021, 1, 1, 0⟩, tags := [1, 2] }).2.2.2
      1 2 (by decide) (by decide) (by decide) (by decide) (by decide)

/-- C3: the similar-posts ranking returns at most 4 posts, never the reference
post itself, never a post with zero tag overlap (such posts are not candidates
at all), and only visible published posts from the repository. -/
theorem c3_similar_bounds (now : Timestamp) (db : List Post) (r : Post) :
    (get_similar_posts now db r).length ≤ 4
    ∧ (∀ p, p ∈ get_similar_posts now db r → p.id ≠ r.id ∧ p ≠ r)
    ∧ (∀ p, p ∈ get_similar_posts now db r → ∃ t, t ∈ p.tags ∧ t ∈ r.tags)
    ∧ (∀ p : Post, (∀ t ∈ p.tags, t ∉ r.tags) → p ∉ get_similar_posts now db r)
    ∧ (∀ p, p ∈ get_similar_posts now db r →
        p ∈ db ∧ Timestamp.ble p.publish now = true) := by
  have hmem : ∀ p, p ∈ get_similar_posts now db r →
      (p ∈ db ∧ Timestamp.ble p.publish now = true) ∧
        (∃ t, t ∈ p.tags ∧ t ∈ r.tags) ∧ p.id ≠ r.id := by
    intro p hp
    simp only [get_similar_posts] at hp
    have h1 := mem_sortBy.mp (List.mem_of_mem_take hp)
    have h2 := List.mem_filter.mp h1
    have h3 := List.mem_filter.mp h2.1
    refine ⟨mem_published_qs.mp h3.1, ?_, ?_⟩
    · simpa using h3.2
    · simpa using h2.2
  refine ⟨?_, ?_, ?_, ?_, ?_⟩
  · simp only [get_similar_posts]
    rw [List.length_take]
    omega
  · intro p hp
    have hid := (hmem p hp).2.2
    exact ⟨hid, fun hpr => hid (by rw [hpr])⟩
  · intro p hp
    exact (hmem p hp).2.1
  · intro p hno hp
    obtain ⟨t, ht, htr⟩ := (hmem p hp).2.1
    exact hno t ht htr
  · intro p hp
    exact (hmem p hp).1

/-- C3 witness: a concrete similar-posts query exercising the length bound,
the self-exclusion, the shared-tag guarantee and the zero-overlap exclusion. -/
theorem c3_witness :
    (get_similar_posts ⟨2025, 1, 1, 0⟩
        [{ id := 2, title := "y", slug := "y", publish := ⟨2024, 1, 1, 0⟩, tags := [1] },
         { id := 5, title := "n", slug := "n", publish := ⟨2024, 2, 1, 0⟩, tags := [9] }]
        { id := 1, title := "r", slug := "r", publish := ⟨2021, 1, 1, 0⟩, tags := [1, 2] }).length ≤ 4
    ∧ ({ id := 2, title := "y", slug := "y", publish := ⟨2024, 1, 1, 0⟩, tags := [1] } : Post).id ≠
        ({ id := 1, title := "r", slug := "r", publish := ⟨2021, 1, 1, 0⟩, tags := [1, 2] } : Post).id
    ∧ (∃ t, t ∈ ({ id := 2, title := "y", slug := "y", publish := ⟨2024, 1, 1, 0⟩, tags := [1] } : Post).tags ∧
        t ∈ ({ id := 1, title := "r", slug := "r", publish := ⟨2021, 1, 1, 0⟩, tags := [1, 2] } : Post).tags)
    ∧ ({ id := 5, title := "n", slug := "n", publish := ⟨2024, 2, 1, 0⟩, tags := [9] } : Post) ∉
        get_similar_posts ⟨2025, 1, 1, 0⟩
          [{ id := 2, title := "y", slug := "y", publish := ⟨2024, 1, 1, 0⟩, tags := [1] },
           { id := 5, title := "n", slug := "n", publish := ⟨2024, 2, 1, 0⟩, tags := [9] }]
          { id := 1, title := "r", slug := "r", publish := ⟨2021, 1, 1, 0⟩, tags := [1, 2] } := by
  refine ⟨?_, ?_, ?_, ?_⟩
  · exact (c3_similar_bounds ⟨2025, 1, 1, 0⟩
        [{ id := 2, title := "y", slug := "y", publish := ⟨2024, 1, 1, 0⟩, tags := [1] },
         { id := 5, title := "n", slug := "n", publish := ⟨2024, 2, 1, 0⟩, tags := [9] }]
        { id := 1, title := "r", slug := "r", publish := ⟨2021, 1, 1, 0⟩, tags := [1, 2] }).1
  · exact ((c3_similar_bounds ⟨2025, 1, 1, 0⟩
        [{ id := 2, title := "y", slug := "y", publish := ⟨2024, 1, 1, 0⟩, tags := [1] },
         { id := 5, title := "n", slug := "n", publish := ⟨2024, 2, 1, 0⟩, tags := [9] }]
        { id := 1, title := "r", slug := "r", publish := ⟨2021, 1, 1, 0⟩, tags := [1, 2] }).2.1
      { id := 2, title := "y", slug := "y", publish := ⟨2024, 1, 1, 0⟩, tags := [1] }
      (by decide)).1
  · exact (c3_similar_bounds ⟨2025, 1, 1, 0⟩
        [{ id := 2, title := "y", slug := "y", publish := ⟨2024, 1, 1, 0⟩, tags := [1] },
         { id := 5, title := "n", slug := "n", publish := ⟨2024, 2, 1, 0⟩, tags := [9] }]
        { id := 1, title := "r", slug := "r", publish := ⟨2021, 1, 1, 0⟩, tags := [1, 2] }).2.2.1
      { id := 2, title := "y", slug := "y", publish := ⟨2024, 1, 1, 0⟩, tags := [1] }
      (by decide)
  · exact (c3_similar_bounds ⟨2025, 1, 1, 0⟩
        [{ id := 2, title := "y", slug := "y", publish := ⟨2024, 1, 1, 0⟩, tags := [1] },
         { id := 5, title := "n", slug := "n", publish := ⟨2024, 2, 1, 0⟩, tags := [9] }]
        { id := 1, title := "r", slug := "r", publish := ⟨2021, 1, 1, 0⟩, tags := [1, 2] }).2.2.2.1
      { id := 5, title := "n", slug := "n", publish := ⟨2024, 2, 1, 0⟩, tags := [9] }
      (by decide)

/-! Claims C4 and C9: the pagination policy. -/

theorem num_pages_pos (count : Nat) : 1 ≤ num_pages count 4 := by
  simp only [num_pages]
  omega

theorem num_pages_gt_one {count : Nat} (h : 4 < count) : 1 < num_pages count 4 := by
  simp only [num_pages]
  omega

/-- C4: with page size 4, an absent or non-numeric page token yields page 1, a
numeric token within `1..num_pages` yields that page, and a numeric token
beyond the last page yields the explicitly empty response on an ajax request
and the last valid page on a normal request. -/
theorem c4_paginator_policy (l : List Post) (tok : Option String) (ajax : Bool) :
    ((tok = none ∨ ∃ s, tok = some s ∧ pyInt s = none) →
        paginate_request l tok ajax = .page (page_items l 4 1) 1)
    ∧ (∀ s n, tok = some s → pyInt s = some n → 1 ≤ n →
        n ≤ (num_pages l.length 4 : Int) →
        paginate_request l tok ajax = .page (page_items l 4 n.toNat) n.toNat)
    ∧ (∀ s n, tok = some s → pyInt s = some n → (num_pages l.length 4 : Int) < n →
        (ajax = true → paginate_request l tok ajax = .ajaxEmpty)
        ∧ (ajax = false →
            paginate_request l tok ajax =
              .page (page_items l 4 (num_pages l.length 4)) (num_pages l.length 4))) := by
  refine ⟨?_, ?_, ?_⟩
  · rintro (rfl | ⟨s, rfl, hs⟩)
    · rfl
    · have hv : validate_number (num_pages l.length 4) (some s) =
          .error .pageNotAnInteger := by
        simp [validate_number, hs]
      simp [paginate_request, hv]
  · intro s n hs hn h1 hnp
    subst hs
    have hv : validate_number (num_pages l.length 4) (some s) = .ok n := by
      simp only [validate_number, hn]
      rw [if_neg (by omega), if_neg (by omega)]
    simp [paginate_request, hv]
  · intro s n hs hn hnp
    subst hs
    have h1 := num_pages_pos l.length
    have hv : validate_number (num_pages l.length 4) (some s) =
        .error .emptyPage := by
      simp only [validate_number, hn]
      rw [if_neg (by omega), if_pos ⟨hnp, by omega⟩]
    constructor
    · intro ha
      simp [paginate_request, hv, ha]
    · intro ha
      simp [paginate_request, hv, ha]

/-- C4 witness: a 5-item list (2 pages): absent token, token `"2"` in range,
and token `"9"` past the end on an ajax and on a normal request. -/
theorem c4_witness :
    paginate_request
        [{ id := 1, title := "", slug := "", publish := ⟨2020, 1, 1, 0⟩, tags := [] },
         { id := 2, title := "", slug := "", publish := ⟨2020, 1, 2, 0⟩, tags := [] },
         { id := 3, title := "", slug := "", publish := ⟨2020, 1, 3, 0⟩, tags := [] },
         { id := 4, title := "", slug := "", publish := ⟨2020, 1, 4, 0⟩, tags := [] },
         { id := 5, title := "", slug := "", publish := ⟨2020, 1, 5, 0⟩, tags := [] }]
        none false
      = .page (page_items
          [{ id := 1, title := "", slug := "", publish := ⟨2020, 1, 1, 0⟩, tags := [] },
           { id := 2, title := "", slug := "", publish := ⟨2020, 1, 2, 0⟩, tags := [] },
           { id := 3, title := "", slug := "", publish := ⟨2020, 1, 3, 0⟩, tags := [] },
           { id := 4, title := "", slug := "", publish := ⟨2020, 1, 4, 0⟩, tags := [] },
           { id := 5, title := "", slug := "", publish := ⟨2020, 1, 5, 0⟩, tags := [] }] 4 1) 1
    ∧ paginate_request
        [{ id := 1, title := "", slug := "", publish := ⟨2020, 1, 1, 0⟩, tags := [] },
         { id := 2, title := "", slug := "", publish := ⟨2020, 1, 2, 0⟩, tags := [] },
         { id := 3, title := "", slug := "", publish := ⟨2020, 1, 3, 0⟩, tags := [] },
         { id := 4, title := "", slug := "", publish := ⟨2020, 1, 4, 0⟩, tags := [] },
         { id := 5, title := "", slug := "", publish := ⟨2020, 1, 5, 0⟩, tags := [] }]
        (some "2") false
      = .page (page_items
          [{ id := 1, title := "", slug := "", publish := ⟨2020, 1, 1, 0⟩, tags := [] },
           { id := 2, title := "", slug := "", publish := ⟨2020, 1, 2, 0⟩, tags := [] },
           { id := 3, title := "", slug := "", publish := ⟨2020, 1, 3, 0⟩, tags := [] },
           { id := 4, title := "", slug := "", publish := ⟨2020, 1, 4, 0⟩, tags := [] },
           { id := 5, title := "", slug := "", publish := ⟨2020, 1, 5, 0⟩, tags := [] }] 4 2) 2
    ∧ paginate_request
        [{ id := 1, title := "", slug := "", publish := ⟨2020, 1, 1, 0⟩, tags := [] },
         { id := 2, title := "", slug := "", publish := ⟨2020, 1, 2, 0⟩, tags := [] },
         { id := 3, title := "", slug := "", publish := ⟨2020, 1, 3, 0⟩, tags := [] },
         { id := 4, title := "", slug := "", publish := ⟨2020, 1, 4, 0⟩, tags := [] },
         { id := 5, title := "", slug := "", publish := ⟨2020, 1, 5, 0⟩, tags := [] }]
        (some "9") true
      = .ajaxEmpty
    ∧ paginate_request
        [{ id := 1, title := "", slug := "", publish := ⟨2020, 1, 1, 0⟩, tags := [] },
         { id := 2, title := "", slug := "", publish := ⟨2020, 1, 2, 0⟩, tags := [] },
         { id := 3, title := "", slug := "", publish := ⟨2020, 1, 3, 0⟩, tags := [] },
         { id := 4, title := "", slug := "", publish := ⟨2020, 1, 4, 0⟩, tags := [] },
         { id := 5, title := "", slug := "", publish := ⟨2020, 1, 5, 0⟩, tags := [] }]
        (some "9") false
      = .page (page_items
          [{ id := 1, title := "", slug := "", publish := ⟨2020, 1, 1, 0⟩, tags := [] },
           { id := 2, title := "", slug := "", publish := ⟨2020, 1, 2, 0⟩, tags := [] },
           { id := 3, title := "", slug := "", publish := ⟨2020, 1, 3, 0⟩, tags := [] },
           { id := 4, title := "", slug := "", publish := ⟨2020, 1, 4, 0⟩, tags := [] },
           { id := 5, title := "", slug := "", publish := ⟨2020, 1, 5, 0⟩, tags := [] }] 4 2) 2 := by
  refine ⟨?_, ?_, ?_, ?_⟩
  · exact (c4_paginator_policy _ none false).1 (Or.inl rfl)
  · exact (c4_paginator_policy _ (some "2") false).2.1 "2" 2 rfl (by decide)
      (by decide) (by decide)
  · exact ((c4_paginator_policy _ (some "9") true).2.2 "9" 9 rfl (by decide)
      (by decide)).1 rfl
  · exact ((c4_paginator_policy _ (some "9") false).2.2 "9" 9 rfl (by decide)
      (by decide)).2 rfl

/-- C9: a numeric page token strictly below 1 (such as `"0"` or `"-1"`) is
treated as an out-of-range page, not as a non-numeric token: an ajax request
gets the explicitly empty response and a normal request gets the last valid
page, which differs from page 1 whenever there is more than one page. -/
theorem c9_page_below_one (l : List Post) (s : String) (ajax : Bool) (n : Int)
    (hn : pyInt s = some n) (hlt : n < 1) :
    (ajax = true → paginate_request l (some s) ajax = .ajaxEmpty)
    ∧ (ajax = false →
        paginate_request l (some s) ajax =
          .page (page_items l 4 (num_pages l.length 4)) (num_pages l.length 4))
    ∧ (4 < l.length → 1 < num_pages l.length 4) := by
  have hv : validate_number (num_pages l.length 4) (some s) = .error .emptyPage := by
    simp only [validate_number, hn]
    rw [if_pos hlt]
  refine ⟨?_, ?_, fun h => num_pages_gt_one h⟩
  · intro ha
    simp [paginate_request, hv, ha]
  · intro ha
    simp [paginate_request, hv, ha]

/-- C9 witness: tokens `"0"` and `"-1"` on a 5-item (2-page) list. -/
theorem c9_witness :
    paginate_request
        [{ id := 1, title := "", slug := "", publish := ⟨2020, 1, 1, 0⟩, tags := [] },
         { id := 2, title := "", slug := "", publish := ⟨2020, 1, 2, 0⟩, tags := [] },
         { id := 3, title := "", slug := "", publish := ⟨2020, 1, 3, 0⟩, tags := [] },
         { id := 4, title := "", slug := "", publish := ⟨2020, 1, 4, 0⟩, tags := [] },
         { id := 5, title := "", slug := "", publish := ⟨2020, 1, 5, 0⟩, tags := [] }]
        (some "0") true
      = .ajaxEmpty
    ∧ paginate_request
        [{ id := 1, title := "", slug := "", publish := ⟨2020, 1, 1, 0⟩, tags := [] },
         { id := 2, title := "", slug := "", publish := ⟨2020, 1, 2, 0⟩, tags := [] },
         { id := 3, title := "", slug := "", publish := ⟨2020, 1, 3, 0⟩, tags := [] },
         { id := 4, title := "", slug := "", publish := ⟨2020, 1, 4, 0⟩, tags := [] },
         { id := 5, title := "", slug := "", publish := ⟨2020, 1, 5, 0⟩, tags := [] }]
        (some "-1") false
      = .page (page_items
          [{ id := 1, title := "", slug := "", publish := ⟨2020, 1, 1, 0⟩, tags := [] },
           { id := 2, title := "", slug := "", publish := ⟨2020, 1, 2, 0⟩, tags := [] },
           { id := 3, title := "", slug := "", publish := ⟨2020, 1, 3, 0⟩, tags := [] },
           { id := 4, title := "", slug := "", publish := ⟨2020, 1, 4, 0⟩, tags := [] },
           { id := 5, title := "", slug := "", publish := ⟨2020, 1, 5, 0⟩, tags := [] }] 4 2) 2
    ∧ 1 < num_pages 5 4 := by
  refine ⟨?_, ?_, ?_⟩
  · exact (c9_page_below_one _ "0" true 0 (by decide) (by decide)).1 rfl
  · exact (c9_page_below_one _ "-1" false (-1) (by decide) (by decide)).2.1 rfl
  · exact (c9_page_below_one
        [{ id := 1, title := "", slug := "", publish := ⟨2020, 1, 1, 0⟩, tags := [] },
         { id := 2, title := "", slug := "", publish := ⟨2020, 1, 2, 0⟩, tags := [] },
         { id := 3, title := "", slug := "", publish := ⟨2020, 1, 3, 0⟩, tags := [] },
         { id := 4, title := "", slug := "", publish := ⟨2020, 1, 4, 0⟩, tags := [] },
         { id := 5, title := "", slug := "", publish := ⟨2020, 1, 5, 0⟩, tags := [] }]
        "0" false 0 (by decide) (by decide)).2.2 (by decide)

/-! Claims C5 and C7: the free-text search branch. -/

theorem sim_le_trans (sim : String → String → ℚ) (q : String) :
    ∀ a b c, sim_le sim q a b = true → sim_le sim q b c = true →
      sim_le sim q a c = true := by
  intro a b c h1 h2
  simp only [sim_le, decide_eq_true_eq] at h1 h2 ⊢
  exact le_trans h2 h1

theorem sim_le_total (sim : String → String → ℚ) (q : String) :
    ∀ a b, sim_le sim q a b = true ∨ sim_le sim q b a = true := by
  intro a b
  simp only [sim_le, decide_eq_true_eq]
  exact le_total (sim b.title q) (sim a.title q)

theorem search_rank_pairwise (sim : String → String → ℚ) (q : String)
    (posts : List Post) :
    (search_rank sim q posts).Pairwise (fun a b => sim b.title q ≤ sim a.title q) := by
  simp only [search_rank]
  exact (pairwise_sortBy (sim_le_trans sim q) (sim_le_total sim q) _).imp
    (fun h => by simpa [sim_le] using h)

/-- C5: the search branch keeps exactly the posts whose similarity score on
the title is strictly above the threshold `0.1`, orders them by descending
similarity, and the reported `total_results` of a full-page response is the
number of matching posts before pagination; a query with zero matches yields
an empty result set of length 0 rather than an error. -/
theorem c5_search_ranking (tags : List Tag) (now : Timestamp)
    (sim : String → String → ℚ) (db : List Post) (req : ListRequest)
    (q : String) (posts : List Post) :
    searchThreshold = 1 / 10
    ∧ (∀ p, p ∈ search_rank sim q posts ↔
        (p ∈ posts ∧ searchThreshold < sim p.title q))
    ∧ (search_rank sim q posts).Pairwise (fun a b => sim b.title q ≤ sim a.title q)
    ∧ ((∀ p ∈ posts, ¬ searchThreshold < sim p.title q) →
        search_rank sim q posts = [] ∧ (search_rank sim q posts).length = 0)
    ∧ (∀ raw posts1 tag date tg dt items pn qq tot,
        req.query = some raw → SearchForm.clean_query raw = some q →
        base_filtered tags now db req = .ok (posts1, tag, date) →
        post_list tags now sim db req = .ok (.fullPage tg dt items pn qq tot) →
        tot = (search_rank sim q posts1).length ∧
          ∀ p ∈ items, p ∈ search_rank sim q posts1) := by
  refine ⟨?_, fun p => mem_search_rank, search_rank_pairwise sim q posts, ?_, ?_⟩
  · norm_num [searchThreshold, mkRat, Rat.normalize]
  · intro h
    have hf : posts.filter (fun p => decide (searchThreshold < sim p.title q)) = [] := by
      rw [List.filter_eq_nil_iff]
      intro a ha
      simpa using h a ha
    refine ⟨?_, ?_⟩ <;> simp [search_rank, hf, sortBy]
  · intro raw posts1 tag date tg dt items pn qq tot hq hclean hbase hpl
    have hres : post_list_results tags now sim db req =
        .ok (search_rank sim q posts1, tag, date, some q) := by
      simp [post_list_results, hbase, query_filtered, hq, hclean]
    simp only [post_list, hres] at hpl
    split at hpl
    · simp at hpl
    · rename_i items' n' heq
      split at hpl
      · simp at hpl
      · simp only [Except.ok.injEq, ListResponse.fullPage.injEq] at hpl
        obtain ⟨-, -, hitems, -, -, htot⟩ := hpl
        refine ⟨htot.symm, ?_⟩
        intro p hp
        exact paginate_request_sub heq p (hitems ▸ hp)

/-- C5 witness: a similarity function scoring title `"match"` at 1 and others
at 0; membership above the threshold, an empty zero-match result, and the
pre-pagination `total_results` of a concrete searched request. -/
theorem c5_witness :
    ({ id := 1, title := "match", slug := "m", publish := ⟨2020, 1, 1, 0⟩, tags := [] } : Post) ∈
        search_rank (fun t _ => if t = "match" then 1 else 0) "hi"
          [{ id := 1, title := "match", slug := "m", publish := ⟨2020, 1, 1, 0⟩, tags := [] },
           { id := 2, title := "zzz", slug := "z", publish := ⟨2020, 1, 2, 0⟩, tags := [] }]
    ∧ search_rank (fun t _ => if t = "match" then 1 else 0) "hi"
        [{ id := 2, title := "zzz", slug := "z", publish := ⟨2020, 1, 2, 0⟩, tags := [] }] = []
    ∧ (1 : Nat) = (search_rank (fun t _ => if t = "match" then 1 else 0) "hi"
        (published_all ⟨2025, 1, 1, 0⟩
          [{ id := 1, title := "match", slug := "m", publish := ⟨2020, 1, 1, 0⟩, tags := [] },
           { id := 2, title := "zzz", slug := "z", publish := ⟨2020, 1, 2, 0⟩, tags := [] }])).length := by
  refine ⟨?_, ?_, ?_⟩
  · exact ((c5_search_ranking [] ⟨2025, 1, 1, 0⟩ (fun t _ => if t = "match" then 1 else 0)
        [] { year := none, month := none, tag_slug := none, query := none,
             page := none, isAjax := false } "hi"
        [{ id := 1, title := "match", slug := "m", publish := ⟨2020, 1, 1, 0⟩, tags := [] },
         { id := 2, title := "zzz", slug := "z", publish := ⟨2020, 1, 2, 0⟩, tags := [] }]).2.1
      { id := 1, title := "match", slug := "m", publish := ⟨2020, 1, 1, 0⟩, tags := [] }).mpr
      ⟨by decide, by decide⟩
  · exact ((c5_search_ranking [] ⟨2025, 1, 1, 0⟩ (fun t _ => if t = "match" then 1 else 0)
        [] { year := none, month := none, tag_slug := none, query := none,
             page := none, isAjax := false } "hi"
        [{ id := 2, title := "zzz", slug := "z", publish := ⟨2020, 1, 2, 0⟩, tags := [] }]).2.2.2.1
      (by intro p hp; simp at hp; subst hp; decide)).1
  · exact ((c5_search_ranking [] ⟨2025, 1, 1, 0⟩ (fun t _ => if t = "match" then 1 else 0)
        [{ id := 1, title := "match", slug := "m", publish := ⟨2020, 1, 1, 0⟩, tags := [] },
         { id := 2, title := "zzz", slug := "z", publish := ⟨2020, 1, 2, 0⟩, tags := [] }]
        { year := none, month := none, tag_slug := none, query := some " hi ",
          page := none, isAjax := false } "hi" []).2.2.2.2
      " hi " (published_all ⟨2025, 1, 1, 0⟩
          [{ id := 1, title := "match", slug := "m", publish := ⟨2020, 1, 1, 0⟩, tags := [] },
           { id := 2, title := "zzz", slug := "z", publish := ⟨2020, 1, 2, 0⟩, tags := [] }])
      none none none none
      (search_rank (fun t _ => if t = "match" then 1 else 0) "hi"
        (published_all ⟨2025, 1, 1, 0⟩
          [{ id := 1, title := "match", slug := "m", publish := ⟨2020, 1, 1, 0⟩, tags := [] },
           { id := 2, title := "zzz", slug := "z", publish := ⟨2020, 1, 2, 0⟩, tags := [] }]))
      1 (some "hi") 1 rfl (by decide) (by rfl) (by rfl)).1.symm

/-- C7: when the GET parameter `query` is present but the search form does not
validate — exactly when the stripped value is empty, the empty string included,
since the field is required — the request never succeeds: whenever the base
filter stage itself went through, it terminates with `Http404("Invalid
search")` and no result set; with a valid query the similarity ranker is
applied to the base-filtered posts. -/
theorem c7_invalid_query (tags : List Tag) (now : Timestamp)
    (sim : String → String → ℚ) (db : List Post) (req : ListRequest)
    (raw : String) (hq : req.query = some raw) :
    (SearchForm.clean_query raw = none ↔ (pyStrip raw).data = [])
    ∧ (SearchForm.clean_query raw = none →
        (∀ resp, post_list tags now sim db req ≠ .ok resp)
        ∧ (∀ posts1 tag date,
            base_filtered tags now db req = .ok (posts1, tag, date) →
            post_list tags now sim db req = .error (.http404 "Invalid search")))
    ∧ (∀ q, SearchForm.clean_query raw = some q →
        ∀ posts1 tag date,
          base_filtered tags now db req = .ok (posts1, tag, date) →
          post_list_results tags now sim db req =
            .ok (search_rank sim q posts1, tag, date, some q)) := by
  refine ⟨?_, ?_, ?_⟩
  · simp only [SearchForm.clean_query]
    split
    · rename_i h
      simpa using List.isEmpty_iff.mp (by simpa using h)
    · rename_i h
      constructor
      · intro hc
        simp at hc
      · intro hd
        exact absurd (List.isEmpty_iff.mpr (by simpa using hd)) (by simpa using h)
  · intro hclean
    constructor
    · intro resp h
      cases hb : base_filtered tags now db req with
      | error e =>
        rw [show post_list tags now sim db req = .error e by
          simp [post_list, post_list_results, hb]] at h
        simp at h
      | ok val =>
        obtain ⟨posts1, tag, date⟩ := val
        rw [show post_list tags now sim db req = .error (.http404 "Invalid search") by
          have hres : post_list_results tags now sim db req =
              .error (.http404 "Invalid search") := by
            simp [post_list_results, hb, query_filtered, hq, hclean]
          simp [post_list, hres]] at h
        simp at h
    · intro posts1 tag date hbase
      have hres : post_list_results tags now sim db req =
          .error (.http404 "Invalid search") := by
        simp [post_list_results, hbase, query_filtered, hq, hclean]
      simp [post_list, hres]
  · intro q hclean posts1 tag date hbase
    simp [post_list_results, hbase, query_filtered, hq, hclean]

/-- C7 witness: the empty query string fails validation and 404s a concrete
request, while the valid query `" hi "` reaches the similarity ranker. -/
theorem c7_witness :
    (SearchForm.clean_query "" = none ↔ (pyStrip "").data = [])
    ∧ post_list [] ⟨2025, 1, 1, 0⟩ (fun _ _ => 0) []
        { year := none, month := none, tag_slug := none, query := some "",
          page := none, isAjax := false } ≠ .ok .ajaxEmptyResponse
    ∧ post_list [] ⟨2025, 1, 1, 0⟩ (fun _ _ => 0) []
        { year := none, month := none, tag_slug := none, query := some "",
          page := none, isAjax := false } = .error (.http404 "Invalid search")
    ∧ post_list_results [] ⟨2025, 1, 1, 0⟩ (fun _ _ => 0) []
        { year := none, month := none, tag_slug := none, query := some " hi ",
          page := none, isAjax := false }
      = .ok (search_rank (fun _ _ => 0) "hi" (published_all ⟨2025, 1, 1, 0⟩ []),
          none, none, some "hi") := by
  refine ⟨?_, ?_, ?_, ?_⟩
  · exact (c7_invalid_query [] ⟨2025, 1, 1, 0⟩ (fun _ _ => 0) []
        { year := none, month := none, tag_slug := none, query := some "",
          page := none, isAjax := false } "" rfl).1
  · exact ((c7_invalid_query [] ⟨2025, 1, 1, 0⟩ (fun _ _ => 0) []
        { year := none, month := none, tag_slug := none, query := some "",
          page := none, isAjax := false } "" rfl).2.1 (by decide)).1 .ajaxEmptyResponse
  · exact ((c7_invalid_query [] ⟨2025, 1, 1, 0⟩ (fun _ _ => 0) []
        { year := none, month := none, tag_slug := none, query := some "",
          page := none, isAjax := false } "" rfl).2.1 (by decide)).2
      (published_all ⟨2025, 1, 1, 0⟩ []) none none (by rfl)
  · exact (c7_invalid_query [] ⟨2025, 1, 1, 0⟩ (fun _ _ => 0) []
        { year := none, month := none, tag_slug := none, query := some " hi ",
          page := none, isAjax := false } " hi " rfl).2.2 "hi" (by decide)
      (published_all ⟨2025, 1, 1, 0⟩ []) none none (by rfl)

/-! Claims C6 and C10: the base-filter routing and the archive date guard.
The view tests `if year and month:` — Python truthiness — so a present but
zero `month` (admitted by the URL's `<int:month>` converter) silently skips
the archive branch instead of filtering or failing. -/

/-- C6 counterexample: with `year = 2020` and `month = 0` both present, the
request succeeds and returns a post published in May 2021, so the result is
not restricted to the requested calendar month. -/
theorem c6_router_counterexample :
    post_list [] ⟨2025, 1, 1, 0⟩ (fun _ _ => 0)
        [{ id := 1, title := "a", slug := "a", publish := ⟨2021, 5, 1, 0⟩, tags := [] }]
        { year := some 2020, month := some 0, tag_slug := none, query := none,
          page := none, isAjax := false }
      = .ok (.fullPage none none
          [{ id := 1, title := "a", slug := "a", publish := ⟨2021, 5, 1, 0⟩, tags := [] }]
          1 none 1)
    ∧ ({ id := 1, title := "a", slug := "a", publish := ⟨2021, 5, 1, 0⟩, tags := [] } : Post).publish.year ≠ 2020 := by
  exact ⟨by rfl, by decide⟩

/-- C6 (amended): when year and month are both present and nonzero (truthy)
the result is restricted to that calendar month; otherwise, when a nonempty
tag slug is present it is resolved (404 when unknown) and the result is
restricted to that tag; the two filters are never both applied. -/
theorem c6_router_amended (tags : List Tag) (now : Timestamp) (db : List Post)
    (req : ListRequest) :
    (∀ y m, req.year = some y → req.month = some m → y ≠ 0 → m ≠ 0 →
        datetime_ok y m = true →
        base_filtered tags now db req =
          .ok (month_filter y m (published_all now db), none, some (y, m)))
    ∧ (¬(truthyNat req.year = true ∧ truthyNat req.month = true) →
        ∀ s, req.tag_slug = some s → s.data ≠ [] →
          (tags.find? (fun t => t.slug == s) = none →
              base_filtered tags now db req =
                .error (.http404 "No Tag matches the given query."))
          ∧ (∀ t, tags.find? (fun t2 => t2.slug == s) = some t →
              base_filtered tags now db req =
                .ok (tag_filter t (published_all now db), some t, none)))
    ∧ (∀ l t d, base_filtered tags now db req = .ok (l, t, d) →
        t = none ∨ d = none) := by
  refine ⟨?_, ?_, ?_⟩
  · intro y m hy hm hy0 hm0 hdt
    simp [base_filtered, hy, hm, truthyNat, hy0, hm0, hdt]
  · intro hnot s hs hsd
    have hcond : (truthyNat req.year && truthyNat req.month) = false := by
      cases hYr : truthyNat req.year with
      | false => simp [hYr]
      | true =>
        cases hMo : truthyNat req.month with
        | false => simp [hMo]
        | true => exact absurd ⟨hYr, hMo⟩ hnot
    have hie : s.data.isEmpty = false := by
      cases he : s.data.isEmpty with
      | false => rfl
      | true => exact absurd (List.isEmpty_iff.mp he) hsd
    have htr : truthyStr (some s) = true := by simp [truthyStr, hie]
    constructor
    · intro hfind
      simp [base_filtered, hcond, hs, htr, get_tag_or_404, hfind]
    · intro t hfind
      simp [base_filtered, hcond, hs, htr, get_tag_or_404, hfind]
  · intro l t d h
    simp only [base_filtered] at h
    split at h
    · split at h
      · simp only [Except.ok.injEq, Prod.mk.injEq] at h
        exact Or.inl h.2.1.symm
      · simp at h
    · split at h
      · split at h
        · simp at h
        · simp only [Except.ok.injEq, Prod.mk.injEq] at h
          exact Or.inr h.2.2.symm
      · simp only [Except.ok.injEq, Prod.mk.injEq] at h
        exact Or.inl h.2.1.symm

/-- C6 witness: a truthy archive request restricted to March 2021, a tag
request resolved to the tag with slug `"x"` (and a 404 for an unknown slug),
and the mutual-exclusion conjunct at the archive instance. -/
theorem c6_witness :
    base_filtered [] ⟨2025, 1, 1, 0⟩ []
        { year := some 2021, month := some 3, tag_slug := none, query := none,
          page := none, isAjax := false }
      = .ok (month_filter 2021 3 (published_all ⟨2025, 1, 1, 0⟩ []), none,
          some (2021, 3))
    ∧ base_filtered [] ⟨2025, 1, 1, 0⟩ []
        { year := none, month := none, tag_slug := some "z", query := none,
          page := none, isAjax := false }
      = .error (.http404 "No Tag matches the given query.")
    ∧ base_filtered [{ id := 5, slug := "x" }] ⟨2025, 1, 1, 0⟩ []
        { year := none, month := none, tag_slug := some "x", query := none,
          page := none, isAjax := false }
      = .ok (tag_filter { id := 5, slug := "x" } (published_all ⟨2025, 1, 1, 0⟩ []),
          some { id := 5, slug := "x" }, none)
    ∧ ((none : Option Tag) = none ∨ (some (2021, 3) : Option (Nat × Nat)) = none) := by
  refine ⟨?_, ?_, ?_, ?_⟩
  · exact (c6_router_amended [] ⟨2025, 1, 1, 0⟩ []
        { year := some 2021, month := some 3, tag_slug := none, query := none,
          page := none, isAjax := false }).1 2021 3 rfl rfl (by decide) (by decide)
      (by decide)
  · exact ((c6_router_amended [] ⟨2025, 1, 1, 0⟩ []
        { year := none, month := none, tag_slug := some "z", query := none,
          page := none, isAjax := false }).2.1 (by decide) "z" rfl (by decide)).1
      (by rfl)
  · exact ((c6_router_amended [{ id := 5, slug := "x" }] ⟨2025, 1, 1, 0⟩ []
        { year := none, month := none, tag_slug := some "x", query := none,
          page := none, isAjax := false }).2.1 (by decide) "x" rfl (by decide)).2
      { id := 5, slug := "x" } (by rfl)
  · exact (c6_router_amended [] ⟨2025, 1, 1, 0⟩ []
        { year := some 2021, month := some 3, tag_slug := none, query := none,
          page := none, isAjax := false }).2.2
      (month_filter 2021 3 (published_all ⟨2025, 1, 1, 0⟩ [])) none (some (2021, 3))
      (by rfl)

/-- C10 counterexample: `month = 0` lies outside 1..12 and is admitted by the
URL pattern, yet the request does not raise: Python truthiness makes
`if year and month:` skip the archive branch entirely, and the unfiltered
listing is returned. -/
theorem c10_month_zero_counterexample :
    post_list [] ⟨2025, 1, 1, 0⟩ (fun _ _ => 0) []
        { year := some 2020, month := some 0, tag_slug := none, query := none,
          page := none, isAjax := false }
      = .ok (.fullPage none none [] 1 none 0) := by
  rfl

/-- C10 (amended): an archive request with nonzero year and month at least 13
raises the unhandled `ValueError` from `datetime.datetime(year, month, 1)`
instead of returning NotFound or an empty listing; a request with `month = 0`
instead bypasses the archive filter entirely. -/
theorem c10_month_overflow (tags : List Tag) (now : Timestamp)
    (sim : String → String → ℚ) (db : List Post) (req : ListRequest)
    (y m : Nat) (hy : req.year = some y) (hm : req.month = some m)
    (hy0 : y ≠ 0) (hm13 : 13 ≤ m) :
    post_list tags now sim db req = .error .valueError := by
  have h1 : truthyNat req.year = true := by simp [hy, truthyNat, hy0]
  have h2 : truthyNat req.month = true := by
    simp only [hm, truthyNat, decide_eq_true_eq]
    omega
  have h3 : datetime_ok (req.year.getD 0) (req.month.getD 0) = false := by
    simp only [hy, hm, Option.getD_some, datetime_ok]
    simp only [Bool.and_eq_false_iff, decide_eq_false_iff_not]
    omega
  have hbase : base_filtered tags now db req = .error .valueError := by
    simp [base_filtered, h1, h2, h3]
  simp [post_list, post_list_results, hbase]

/-- C10 witness: the archive request for month 13 of year 2020 terminates
with the unhandled `ValueError`. -/
theorem c10_witness :
    post_list [] ⟨2025, 1, 1, 0⟩ (fun _ _ => 0) []
        { year := some 2020, month := some 13, tag_slug := none, query := none,
          page := none, isAjax := false }
      = .error .valueError := by
  exact c10_month_overflow [] ⟨2025, 1, 1, 0⟩ (fun _ _ => 0) []
      { year := some 2020, month := some 13, tag_slug := none, query := none,
        page := none, isAjax := false }
      2020 13 rfl rfl (by decide) (by decide)

/-! Claim C8: the comment-submission defect in `post_detail`. -/

/-- C8: on a valid comment submission the view calls `.save()` on
`new_comment` while it still holds its initial `None`, so the success branch
raises instead of persisting, and no execution path of the branch ever adds a
comment to the store. -/
theorem c8_comment_save_on_none (stored : List Comment) (f : CommentFormData) :
    (CommentForm.is_valid f = true →
        post_detail_comment_flow stored f = .error .attributeErrorNoneSave)
    ∧ (∀ l oc, post_detail_comment_flow stored f = .ok (l, oc) →
        l = stored ∧ oc = none) := by
  constructor
  · intro h
    simp [post_detail_comment_flow, h]
  · intro l oc h
    simp only [post_detail_comment_flow] at h
    split at h
    · simp at h
    · simp only [Except.ok.injEq, Prod.mk.injEq] at h
      exact ⟨h.1.symm, h.2.symm⟩

/-- C8 witness: a fully valid comment form makes the branch raise, and an
invalid one leaves the comment store unchanged. -/
theorem c8_witness :
    post_detail_comment_flow [] { name := "a", email := "a@b.c", body := "hi" }
      = .error .attributeErrorNoneSave
    ∧ ([] : List Comment) = [] ∧ (none : Option Comment) = none := by
  constructor
  · exact (c8_comment_save_on_none []
      { name := "a", email := "a@b.c", body := "hi" }).1 (by decide)
  · exact (c8_comment_save_on_none []
      { name := "", email := "", body := "" }).2 [] none (by rfl)

end Blog
